import Mathlib

/-!
# Verification of the agentic MCP/ADK/A2A/AP2 prototype

A shallow embedding, in Lean, of the three core components of the
repository — the Verification Authority (`src/a2a_kyc_enhanced.py`), the
Staged Authorization Engine (`src/ap2/payment_mock.py`), and the
Step-Binding Resolver (`src/agents/nav.py`) — together with theorems
settling the specification's claims about them.

Modelling conventions:

* Python `float` amounts and risk scores become `ℚ`; the mock's arithmetic
  (`0.1 + min(amount / 1000, 0.3)`) is exact over the rationals.
* Python `dict`s become insertion-ordered association lists over `String`
  keys, with `dictGet`/`dictSet` mirroring `d[k]` reads and writes.
* `uuid.uuid4()` freshness becomes a counter threaded through each
  service's state; the source's id prefixes (`PAY-`, `AUTH-`, `RCP-`,
  `TXN-`) are kept.  `datetime` timestamps become a `Nat` clock advanced
  once per handled operation.
* Python string methods used by the resolver (`startswith`, `endswith`,
  slicing, `split`) are defined here over `String.data` so that every
  definition evaluates inside the kernel.
-/

namespace Spec2Proof

/-! ## Python-style dictionaries -/

/-- Read a key from an insertion-ordered dictionary (Python `d.get(k)`). -/
def dictGet {α : Type _} : List (String × α) → String → Option α
  | [], _ => none
  | (k, v) :: rest, key => if k = key then some v else dictGet rest key

/-- Write a key into an insertion-ordered dictionary (Python `d[k] = v`):
overwrite in place when the key exists, append otherwise. -/
def dictSet {α : Type _} : List (String × α) → String → α → List (String × α)
  | [], key, v => [(key, v)]
  | (k, w) :: rest, key, v =>
      if k = key then (key, v) :: rest else (k, w) :: dictSet rest key v

theorem dictGet_dictSet_self {α : Type _} (d : List (String × α)) (k : String) (v : α) :
    dictGet (dictSet d k v) k = some v := by
  induction d with
  | nil => simp [dictGet, dictSet]
  | cons hd tl ih =>
      obtain ⟨k', w⟩ := hd
      by_cases h : k' = k
      · simp [dictGet, dictSet, h]
      · simp [dictGet, dictSet, h, ih]

theorem dictGet_dictSet_ne {α : Type _} (d : List (String × α)) (k key : String) (v : α)
    (h : key ≠ k) : dictGet (dictSet d k v) key = dictGet d key := by
  induction d with
  | nil => simp [dictGet, dictSet, Ne.symm h]
  | cons hd tl ih =>
      obtain ⟨k', w⟩ := hd
      by_cases hk : k' = k
      · subst hk
        simp [dictGet, dictSet, Ne.symm h]
      · simp [dictGet, dictSet, hk, ih]

/-! ## Python-style string helpers

The resolver in `src/agents/nav.py` manipulates strings with `startswith`,
`endswith`, slicing `value[2:-1]` and `split(".")`.  These are modelled
over `String.data` (the underlying character list). -/

/-- Python `s.startswith(pre)`. -/
def pyStartsWith (s pre : String) : Bool := pre.data.isPrefixOf s.data

/-- Python `s.endswith(suf)`. -/
def pyEndsWith (s suf : String) : Bool := suf.data.isSuffixOf s.data

/-- Python `s[n:]`. -/
def pyDrop (s : String) (n : Nat) : String := String.mk (s.data.drop n)

/-- Python `s[:-n]` (for `n` at most the length). -/
def pyDropRight (s : String) (n : Nat) : String :=
  String.mk (s.data.take (s.data.length - n))

/-- Python `s.split(".")`. -/
def pySplitOnDot (s : String) : List String := (s.data.splitOn '.').map String.mk

/-- Concatenating distinct literal prefixes yields distinct strings: a
`TXN-`-prefixed identifier never equals a `PAY-`-prefixed one. -/
theorem txn_ne_pay (u q : String) : ("TXN-" ++ u) ≠ ("PAY-" ++ q) := by
  intro h
  have h2 := congrArg String.data h
  simp [String.data_append] at h2

/-! ## Staged Authorization Engine (`src/ap2/payment_mock.py`)

`AP2PaymentMock` holds three dictionaries (`payment_intents`,
`authorizations`, `receipts`) and exposes `create_payment_intent`,
`authorize_payment`, `confirm_payment` and `_calculate_risk_score`. -/

/-- `PaymentStatus` — the payment lifecycle states. -/
inductive PaymentStatus where
  | intent_created
  | pending_authorization
  | authorized
  | processing
  | completed
  | failed
  | cancelled
deriving DecidableEq

/-- `PaymentIntent` — the payment intent data model. -/
structure PaymentIntent where
  payment_id : String
  amount : ℚ
  currency : String
  purpose : String
  status : PaymentStatus
  created_at : Nat
  metadata : List (String × String)
deriving DecidableEq

/-- `PaymentAuthorization` — payment authorization data. -/
structure PaymentAuthorization where
  auth_id : String
  payment_id : String
  authorized_by : String
  authorized_at : Nat
  auth_method : String
  risk_score : ℚ
deriving DecidableEq

/-- `PaymentReceipt` — payment completion receipt. -/
structure PaymentReceipt where
  receipt_id : String
  payment_id : String
  transaction_id : String
  amount : ℚ
  currency : String
  status : String
  completed_at : Nat
  confirmation_code : String
deriving DecidableEq

/-- The mutable state of an `AP2PaymentMock` instance, plus a uuid counter
and a clock modelling `uuid.uuid4()` and `datetime.utcnow()`. -/
structure AP2State where
  payment_intents : List (String × PaymentIntent)
  authorizations : List (String × PaymentAuthorization)
  receipts : List (String × PaymentReceipt)
  next_uuid : Nat
  now : Nat
deriving DecidableEq

/-- A freshly constructed `AP2PaymentMock`. -/
def AP2State.init : AP2State := ⟨[], [], [], 0, 0⟩

/-- `_calculate_risk_score`: `base_risk = 0.1`,
`amount_risk = min(intent.amount / 1000.0, 0.3)`, result is their sum. -/
def calculate_risk_score (intent : PaymentIntent) : ℚ :=
  0.1 + min (intent.amount / 1000) 0.3

/-- The dictionary returned by a (always successful) `create_payment_intent`. -/
structure CreateIntentResponse where
  payment_id : String
  amount : ℚ
  currency : String
  purpose : String
  status : PaymentStatus
  created_at : Nat
  next_step : String
deriving DecidableEq

/-- `create_payment_intent(amount, purpose, currency, metadata)`: store a
new intent with status `intent_created` under a fresh `PAY-` id and return
its fields.  The source performs no validation of `amount`. -/
def create_payment_intent (s : AP2State) (amount : ℚ) (purpose currency : String)
    (metadata : List (String × String)) : CreateIntentResponse × AP2State :=
  let payment_id := "PAY-" ++ toString s.next_uuid
  let intent : PaymentIntent :=
    ⟨payment_id, amount, currency, purpose, .intent_created, s.now, metadata⟩
  (⟨payment_id, amount, currency, purpose, .intent_created, s.now, "authorize_payment"⟩,
   { s with
      payment_intents := dictSet s.payment_intents payment_id intent
      next_uuid := s.next_uuid + 1
      now := s.now + 1 })

/-- The dictionary returned by `authorize_payment`. -/
inductive AuthorizeResult where
  | notFound (error : String)
  | highRisk (payment_id error : String) (risk_score : ℚ)
  | ok (payment_id auth_id : String) (authorized_at : Nat) (risk_score : ℚ)
      (status : PaymentStatus) (next_step : String)
deriving DecidableEq

/-- `authorize_payment(payment_id, authorized_by, auth_method)`: fail when
the id is unknown; compute the risk score; when it exceeds `0.8` set the
intent to `failed` and reject; otherwise store an authorization and set the
intent to `authorized`.  The source checks no precondition on the intent's
current status. -/
def authorize_payment (s : AP2State) (payment_id authorized_by auth_method : String) :
    AuthorizeResult × AP2State :=
  match dictGet s.payment_intents payment_id with
  | none => (.notFound ("Payment intent not found: " ++ payment_id), s)
  | some intent =>
      let risk_score := calculate_risk_score intent
      if (0.8 : ℚ) < risk_score then
        (.highRisk payment_id "Payment blocked due to high risk score" risk_score,
         { s with
            payment_intents :=
              dictSet s.payment_intents payment_id { intent with status := .failed }
            now := s.now + 1 })
      else
        let auth_id := "AUTH-" ++ toString s.next_uuid
        (.ok payment_id auth_id s.now risk_score .authorized "confirm_payment",
         { s with
            payment_intents :=
              dictSet s.payment_intents payment_id { intent with status := .authorized }
            authorizations :=
              dictSet s.authorizations auth_id
                ⟨auth_id, payment_id, authorized_by, s.now, auth_method, risk_score⟩
            next_uuid := s.next_uuid + 1
            now := s.now + 1 })

/-- The dictionary returned by `confirm_payment`. -/
inductive ConfirmResult where
  | notFound (error : String)
  | notAuthorized (payment_id : String) (current_status : PaymentStatus)
  | ok (receipt : PaymentReceipt)
deriving DecidableEq

/-- `confirm_payment(payment_id)`: fail when the id is unknown; fail when
the current status is not `authorized`, leaving the state untouched;
otherwise pass through `processing`, store a receipt with fresh `RCP-` and
`TXN-` identifiers and a confirmation code, and set the intent to
`completed`. -/
def confirm_payment (s : AP2State) (payment_id : String) : ConfirmResult × AP2State :=
  match dictGet s.payment_intents payment_id with
  | none => (.notFound ("Payment intent not found: " ++ payment_id), s)
  | some intent =>
      if intent.status = PaymentStatus.authorized then
        let receipt_id := "RCP-" ++ toString s.next_uuid
        let transaction_id := "TXN-" ++ toString (s.next_uuid + 1)
        let confirmation_code := "CONF-" ++ toString (s.next_uuid + 2)
        let receipt : PaymentReceipt :=
          ⟨receipt_id, payment_id, transaction_id, intent.amount, intent.currency,
           "completed", s.now, confirmation_code⟩
        (.ok receipt,
         { s with
            payment_intents :=
              dictSet s.payment_intents payment_id { intent with status := .completed }
            receipts := dictSet s.receipts receipt_id receipt
            next_uuid := s.next_uuid + 3
            now := s.now + 1 })
      else
        (.notAuthorized payment_id intent.status, s)

/-- The status the engine currently records for a payment id. -/
def statusOf (s : AP2State) (payment_id : String) : Option PaymentStatus :=
  (dictGet s.payment_intents payment_id).map PaymentIntent.status

/-- How many stored receipts name the given payment id. -/
def receiptsFor (s : AP2State) (payment_id : String) : Nat :=
  (s.receipts.filter (fun kv => kv.2.payment_id == payment_id)).length

/-- The mock's risk score never exceeds `0.4 = 2/5`: the `min` clamps the
amount contribution at `0.3` and the base is `0.1`. -/
theorem calculate_risk_score_le (intent : PaymentIntent) :
    calculate_risk_score intent ≤ 2 / 5 := by
  unfold calculate_risk_score
  have h : min (intent.amount / 1000) (0.3 : ℚ) ≤ 0.3 := min_le_right _ _
  linarith [h]

/-- Hence the high-risk veto comparison `risk_score > 0.8` is never true. -/
theorem calculate_risk_score_not_high (intent : PaymentIntent) :
    ¬ ((0.8 : ℚ) < calculate_risk_score intent) := by
  intro hc
  have h := calculate_risk_score_le intent
  linarith

/-- `authorize_payment` on a stored intent always takes the non-veto
branch: the explicit normal form used to evaluate concrete runs. -/
theorem authorize_payment_of_found (s : AP2State) (payment_id authorized_by auth_method : String)
    (intent : PaymentIntent) (h : dictGet s.payment_intents payment_id = some intent) :
    authorize_payment s payment_id authorized_by auth_method =
      (.ok payment_id ("AUTH-" ++ toString s.next_uuid) s.now (calculate_risk_score intent)
        .authorized "confirm_payment",
       { s with
          payment_intents :=
            dictSet s.payment_intents payment_id { intent with status := .authorized }
          authorizations :=
            dictSet s.authorizations ("AUTH-" ++ toString s.next_uuid)
              ⟨"AUTH-" ++ toString s.next_uuid, payment_id, authorized_by, s.now,
               auth_method, calculate_risk_score intent⟩
          next_uuid := s.next_uuid + 1
          now := s.now + 1 }) := by
  unfold authorize_payment
  rw [h]
  simp [if_neg (calculate_risk_score_not_high intent)]

/-! ### A concrete engine run

The demo flow of `payment_mock.py` (`amount=50.0`, purpose "Premium
workspace booking"): create, authorize, confirm — and then, exposing the
missing status guard in `authorize_payment`, authorize and confirm again. -/

/-- The intent stored by `create_payment_intent(50.0, "Premium workspace booking")`. -/
def intentA : PaymentIntent :=
  ⟨"PAY-0", 50, "USD", "Premium workspace booking", .intent_created, 0, []⟩

/-- Engine state after the create call. -/
def runS1 : AP2State := ⟨[("PAY-0", intentA)], [], [], 1, 1⟩

theorem runS1_eq :
    create_payment_intent AP2State.init 50 "Premium workspace booking" "USD" [] =
      (⟨"PAY-0", 50, "USD", "Premium workspace booking", .intent_created, 0,
        "authorize_payment"⟩, runS1) := rfl

/-- The stored intent once authorized. -/
def intentAuth : PaymentIntent :=
  ⟨"PAY-0", 50, "USD", "Premium workspace booking", .authorized, 0, []⟩

/-- The first authorization record. -/
def authRec1 : PaymentAuthorization :=
  ⟨"AUTH-1", "PAY-0", "agent_nav", 1, "agent_signature", calculate_risk_score intentA⟩

/-- Engine state after the first authorize call. -/
def runS2 : AP2State := ⟨[("PAY-0", intentAuth)], [("AUTH-1", authRec1)], [], 2, 2⟩

theorem runS2_eq :
    (authorize_payment runS1 "PAY-0" "agent_nav" "agent_signature").2 = runS2 := by
  rw [authorize_payment_of_found runS1 "PAY-0" "agent_nav" "agent_signature" intentA rfl]
  rfl

/-- The receipt issued by the first confirm call. -/
def receipt1 : PaymentReceipt :=
  ⟨"RCP-2", "PAY-0", "TXN-3", 50, "USD", "completed", 2, "CONF-4"⟩

/-- The stored intent once completed. -/
def intentDone : PaymentIntent :=
  ⟨"PAY-0", 50, "USD", "Premium workspace booking", .completed, 0, []⟩

/-- Engine state after the first confirm call. -/
def runS3 : AP2State :=
  ⟨[("PAY-0", intentDone)], [("AUTH-1", authRec1)], [("RCP-2", receipt1)], 5, 3⟩

theorem runS3_eq : confirm_payment runS2 "PAY-0" = (.ok receipt1, runS3) := rfl

/-- The second authorization record — issued for an already-completed payment. -/
def authRec2 : PaymentAuthorization :=
  ⟨"AUTH-5", "PAY-0", "agent_nav", 3, "agent_signature", calculate_risk_score intentDone⟩

/-- Engine state after re-authorizing the completed payment. -/
def runS4 : AP2State :=
  ⟨[("PAY-0", intentAuth)], [("AUTH-1", authRec1), ("AUTH-5", authRec2)],
   [("RCP-2", receipt1)], 6, 4⟩

theorem runS4_eq :
    (authorize_payment runS3 "PAY-0" "agent_nav" "agent_signature").2 = runS4 := by
  rw [authorize_payment_of_found runS3 "PAY-0" "agent_nav" "agent_signature" intentDone rfl]
  rfl

/-- The second receipt for the same payment id. -/
def receipt2 : PaymentReceipt :=
  ⟨"RCP-6", "PAY-0", "TXN-7", 50, "USD", "completed", 4, "CONF-8"⟩

/-- Engine state after the second confirm call. -/
def runS5 : AP2State :=
  ⟨[("PAY-0", intentDone)], [("AUTH-1", authRec1), ("AUTH-5", authRec2)],
   [("RCP-2", receipt1), ("RCP-6", receipt2)], 9, 5⟩

theorem runS5_eq : confirm_payment runS4 "PAY-0" = (.ok receipt2, runS5) := rfl

/-! ### Claims C2 and C3: the status machine and receipt uniqueness -/

/-- C2 is refuted: along the concrete run create → authorize → confirm the
payment reaches status `completed`, yet a further `authorize_payment` call
moves it back to `authorized` — the source checks no status before
authorizing, so `completed` is not immutable. -/
theorem c2_counterexample :
    (create_payment_intent AP2State.init 50 "Premium workspace booking" "USD" []).2 = runS1 ∧
    (authorize_payment runS1 "PAY-0" "agent_nav" "agent_signature").2 = runS2 ∧
    confirm_payment runS2 "PAY-0" = (.ok receipt1, runS3) ∧
    statusOf runS3 "PAY-0" = some PaymentStatus.completed ∧
    (authorize_payment runS3 "PAY-0" "agent_nav" "agent_signature").2 = runS4 ∧
    statusOf runS4 "PAY-0" = some PaymentStatus.authorized ∧
    PaymentStatus.authorized ≠ PaymentStatus.completed :=
  ⟨rfl, runS2_eq, runS3_eq, rfl, runS4_eq, rfl, by decide⟩

/-- C2 (amended): `confirm_payment` only advances a record forward — from
`authorized` to `completed`, leaving every other status unchanged — and
`create_payment_intent` does not touch records under other keys; but
`authorize_payment` performs no status check: on any stored record,
including a `completed`, `failed` or `cancelled` one, it resets the status
to `authorized` (or to `failed` when the risk score exceeds `0.8`). -/
theorem c2_amended_transitions (s : AP2State)
    (payment_id authorized_by auth_method purpose currency : String)
    (amount : ℚ) (metadata : List (String × String)) :
    (statusOf (confirm_payment s payment_id).2 payment_id =
      if statusOf s payment_id = some PaymentStatus.authorized then
        some PaymentStatus.completed
      else statusOf s payment_id)
    ∧ (statusOf (authorize_payment s payment_id authorized_by auth_method).2 payment_id =
        match dictGet s.payment_intents payment_id with
        | none => none
        | some intent =>
            some (if (0.8 : ℚ) < calculate_risk_score intent then PaymentStatus.failed
              else PaymentStatus.authorized))
    ∧ (∀ k, k ≠ "PAY-" ++ toString s.next_uuid →
        statusOf (create_payment_intent s amount purpose currency metadata).2 k =
          statusOf s k) := by
  refine ⟨?_, ?_, ?_⟩
  · cases h : dictGet s.payment_intents payment_id with
    | none => simp [confirm_payment, statusOf, h]
    | some intent =>
        by_cases hs : intent.status = PaymentStatus.authorized
        · simp [confirm_payment, statusOf, h, hs, dictGet_dictSet_self]
        · simp [confirm_payment, statusOf, h, hs]
  · cases h : dictGet s.payment_intents payment_id with
    | none => simp [authorize_payment, statusOf, h]
    | some intent =>
        by_cases hr : (0.8 : ℚ) < calculate_risk_score intent
        · simp [authorize_payment, statusOf, h, hr, dictGet_dictSet_self]
        · simp [authorize_payment, statusOf, h, hr, dictGet_dictSet_self]
  · intro k hk
    unfold create_payment_intent statusOf
    simp only
    rw [dictGet_dictSet_ne _ _ _ _ hk]

theorem c2_amended_transitions_witness :
    (statusOf (confirm_payment runS2 "PAY-0").2 "PAY-0" =
      if statusOf runS2 "PAY-0" = some PaymentStatus.authorized then
        some PaymentStatus.completed
      else statusOf runS2 "PAY-0")
    ∧ (statusOf (create_payment_intent runS2 50 "extra" "USD" []).2 "other" =
        statusOf runS2 "other") := by
  have h := c2_amended_transitions runS2 "PAY-0" "agent_nav" "agent_signature"
    "extra" "USD" 50 []
  exact ⟨h.1, h.2.2 "other" (by decide)⟩

/-- C3 is refuted: confirm issues a receipt for `PAY-0`; re-authorizing the
completed payment re-enables confirm, which issues a second, distinct
receipt for the same payment id. -/
theorem c3_counterexample :
    confirm_payment runS2 "PAY-0" = (.ok receipt1, runS3) ∧
    receipt1.payment_id = "PAY-0" ∧
    receiptsFor runS3 "PAY-0" = 1 ∧
    (authorize_payment runS3 "PAY-0" "agent_nav" "agent_signature").2 = runS4 ∧
    confirm_payment runS4 "PAY-0" = (.ok receipt2, runS5) ∧
    receipt2.payment_id = "PAY-0" ∧
    receipt2.receipt_id ≠ receipt1.receipt_id ∧
    receiptsFor runS5 "PAY-0" = 2 :=
  ⟨runS3_eq, rfl, rfl, runS4_eq, runS5_eq, rfl, by decide, rfl⟩

/-- C3 (amended): a second `confirm_payment` without an intervening
`authorize_payment` never yields another receipt — it fails and leaves the
receipt store unchanged; a second receipt for the same payment id arises
only after the (unguarded) re-authorization exhibited in the C3
counterexample. -/
theorem c3_amended_no_direct_double_receipt (s : AP2State) (payment_id : String)
    (r : PaymentReceipt) (h : (confirm_payment s payment_id).1 = ConfirmResult.ok r) :
    (∀ r2, (confirm_payment (confirm_payment s payment_id).2 payment_id).1 ≠
      ConfirmResult.ok r2) ∧
    (confirm_payment (confirm_payment s payment_id).2 payment_id).2.receipts =
      (confirm_payment s payment_id).2.receipts := by
  cases hd : dictGet s.payment_intents payment_id with
  | none => simp [confirm_payment, hd] at h
  | some intent =>
      by_cases hs : intent.status = PaymentStatus.authorized
      · simp [confirm_payment, hd, hs, dictGet_dictSet_self]
      · simp [confirm_payment, hd, hs] at h

theorem c3_amended_no_direct_double_receipt_witness :
    (∀ r2, (confirm_payment (confirm_payment runS2 "PAY-0").2 "PAY-0").1 ≠
      ConfirmResult.ok r2) ∧
    (confirm_payment (confirm_payment runS2 "PAY-0").2 "PAY-0").2.receipts =
      (confirm_payment runS2 "PAY-0").2.receipts :=
  c3_amended_no_direct_double_receipt runS2 "PAY-0" receipt1 rfl

/-! ### Claim C4: create_intent and negative amounts -/

/-- C4 is refuted: `create_payment_intent` performs no validation, so a
call with the negative amount `-5` does not fail with `InvalidAmount` — it
returns status `intent_created` and stores a payment record. -/
theorem c4_counterexample :
    ((-5 : ℚ) < 0) ∧
    (create_payment_intent AP2State.init (-5) "refund" "USD" []).1.status =
      PaymentStatus.intent_created ∧
    dictGet (create_payment_intent AP2State.init (-5) "refund" "USD" []).2.payment_intents
        "PAY-0" =
      some ⟨"PAY-0", -5, "USD", "refund", PaymentStatus.intent_created, 0, []⟩ :=
  ⟨by norm_num, rfl, rfl⟩

/-- C4 (amended): `create_payment_intent` never fails — for every amount,
negative ones included, it returns a fresh record with status
`intent_created` and stores it; there is no `InvalidAmount` path in the
source. -/
theorem c4_amended_create_never_fails (s : AP2State) (amount : ℚ)
    (purpose currency : String) (metadata : List (String × String)) :
    (create_payment_intent s amount purpose currency metadata).1.status =
      PaymentStatus.intent_created ∧
    (create_payment_intent s amount purpose currency metadata).1.payment_id =
      "PAY-" ++ toString s.next_uuid ∧
    dictGet (create_payment_intent s amount purpose currency metadata).2.payment_intents
        ("PAY-" ++ toString s.next_uuid) =
      some ⟨"PAY-" ++ toString s.next_uuid, amount, currency, purpose,
        PaymentStatus.intent_created, s.now, metadata⟩ := by
  refine ⟨rfl, rfl, ?_⟩
  unfold create_payment_intent
  exact dictGet_dictSet_self ..

/-! ### Claim C5: the confirm operation -/

/-- C5: `confirm_payment` succeeds with a completed receipt exactly when
the payment id is stored with status `authorized`; an absent id fails with
the unknown-payment error and any other status fails with the
not-authorized error, both leaving the state unchanged; the receipt's
transaction id is `TXN-`-prefixed and hence distinct from the
`PAY-`-prefixed payment id. -/
theorem c5_confirm_characterization (s : AP2State) (payment_id : String) :
    (dictGet s.payment_intents payment_id = none →
      confirm_payment s payment_id =
        (.notFound ("Payment intent not found: " ++ payment_id), s))
    ∧ (∀ intent, dictGet s.payment_intents payment_id = some intent →
        intent.status ≠ PaymentStatus.authorized →
        confirm_payment s payment_id = (.notAuthorized payment_id intent.status, s))
    ∧ (∀ intent, dictGet s.payment_intents payment_id = some intent →
        intent.status = PaymentStatus.authorized →
        ∃ r, (confirm_payment s payment_id).1 = ConfirmResult.ok r ∧
          r.status = "completed" ∧ r.payment_id = payment_id ∧
          r.transaction_id = "TXN-" ++ toString (s.next_uuid + 1) ∧
          (∀ q, payment_id = "PAY-" ++ q → r.transaction_id ≠ payment_id) ∧
          statusOf (confirm_payment s payment_id).2 payment_id =
            some PaymentStatus.completed)
    ∧ (∀ r, (confirm_payment s payment_id).1 = ConfirmResult.ok r →
        ∃ intent, dictGet s.payment_intents payment_id = some intent ∧
          intent.status = PaymentStatus.authorized) := by
  refine ⟨?_, ?_, ?_, ?_⟩
  · intro h
    simp [confirm_payment, h]
  · intro intent h hs
    simp [confirm_payment, h, hs]
  · intro intent h hs
    refine ⟨⟨"RCP-" ++ toString s.next_uuid, payment_id,
        "TXN-" ++ toString (s.next_uuid + 1), intent.amount, intent.currency,
        "completed", s.now, "CONF-" ++ toString (s.next_uuid + 2)⟩,
      ?_, rfl, rfl, rfl, ?_, ?_⟩
    · simp [confirm_payment, h, hs]
    · intro q hq
      rw [hq]
      exact txn_ne_pay _ _
    · simp [confirm_payment, h, hs, statusOf, dictGet_dictSet_self]
  · intro r hr
    cases h : dictGet s.payment_intents payment_id with
    | none => simp [confirm_payment, h] at hr
    | some intent =>
        by_cases hs : intent.status = PaymentStatus.authorized
        · exact ⟨intent, rfl, hs⟩
        · simp [confirm_payment, h, hs] at hr

theorem c5_confirm_characterization_witness :
    confirm_payment AP2State.init "PAY-0" =
      (.notFound ("Payment intent not found: " ++ "PAY-0"), AP2State.init) ∧
    confirm_payment runS1 "PAY-0" =
      (.notAuthorized "PAY-0" intentA.status, runS1) ∧
    (∃ r, (confirm_payment runS2 "PAY-0").1 = ConfirmResult.ok r ∧
      r.status = "completed" ∧ r.payment_id = "PAY-0" ∧
      r.transaction_id = "TXN-" ++ toString (runS2.next_uuid + 1) ∧
      (∀ q, "PAY-0" = "PAY-" ++ q → r.transaction_id ≠ "PAY-0") ∧
      statusOf (confirm_payment runS2 "PAY-0").2 "PAY-0" =
        some PaymentStatus.completed) :=
  ⟨(c5_confirm_characterization AP2State.init "PAY-0").1 rfl,
   (c5_confirm_characterization runS1 "PAY-0").2.1 intentA rfl (by decide),
   (c5_confirm_characterization runS2 "PAY-0").2.2.1 intentAuth rfl rfl⟩

/-! ### Claims C6 and C10: the risk score -/

/-- The intent stored by `create_payment_intent(-2000, "refund")`. -/
def intentNeg : PaymentIntent :=
  ⟨"PAY-0", -2000, "USD", "refund", .intent_created, 0, []⟩

/-- C6 is refuted in its boundedness part: for the storable amount `-2000`
the computed risk score is `-1.9`, which lies outside `[0, 1]`; authorize
happily records that score on the authorization it issues. -/
theorem c6_counterexample :
    (create_payment_intent AP2State.init (-2000) "refund" "USD" []).2.payment_intents =
      [("PAY-0", intentNeg)] ∧
    calculate_risk_score intentNeg = -19 / 10 ∧
    ¬ (0 ≤ calculate_risk_score intentNeg) ∧
    (authorize_payment (create_payment_intent AP2State.init (-2000) "refund" "USD" []).2
        "PAY-0" "agent_nav" "agent_signature").1 =
      .ok "PAY-0" "AUTH-1" 1 (calculate_risk_score intentNeg) PaymentStatus.authorized
        "confirm_payment" := by
  have hval : calculate_risk_score intentNeg = -19 / 10 := by
    show (0.1 : ℚ) + min ((-2000 : ℚ) / 1000) 0.3 = -19 / 10
    rw [min_eq_left (by norm_num)]
    norm_num
  refine ⟨rfl, hval, ?_, ?_⟩
  · rw [hval]
    norm_num
  · rw [authorize_payment_of_found
        (create_payment_intent AP2State.init (-2000) "refund" "USD" []).2
        "PAY-0" "agent_nav" "agent_signature" intentNeg rfl]
    rfl

/-- C6 (amended): the risk score is a deterministic function of the
intent's amount alone and is monotonically non-decreasing in it; it lies in
`[0, 1]` for every non-negative amount (for amounts below `-100` it is
negative), and it never exceeds `0.4`, so the `0.8` veto comparison never
fires: `authorize_payment` on any stored intent returns the authorized
outcome. -/
theorem c6_amended_risk_properties :
    (∀ i j : PaymentIntent, i.amount = j.amount →
      calculate_risk_score i = calculate_risk_score j)
    ∧ (∀ i j : PaymentIntent, i.amount ≤ j.amount →
        calculate_risk_score i ≤ calculate_risk_score j)
    ∧ (∀ i : PaymentIntent, 0 ≤ i.amount →
        0 ≤ calculate_risk_score i ∧ calculate_risk_score i ≤ 1)
    ∧ (∀ i : PaymentIntent, calculate_risk_score i ≤ 2 / 5)
    ∧ (∀ (s : AP2State) (payment_id authorized_by auth_method : String)
        (intent : PaymentIntent),
        dictGet s.payment_intents payment_id = some intent →
        (authorize_payment s payment_id authorized_by auth_method).1 =
          .ok payment_id ("AUTH-" ++ toString s.next_uuid) s.now
            (calculate_risk_score intent) PaymentStatus.authorized "confirm_payment") := by
  refine ⟨?_, ?_, ?_, calculate_risk_score_le, ?_⟩
  · intro i j h
    unfold calculate_risk_score
    rw [h]
  · intro i j h
    unfold calculate_risk_score
    have h1 : i.amount / 1000 ≤ j.amount / 1000 := by linarith
    have h2 := min_le_min h1 (le_refl (0.3 : ℚ))
    linarith
  · intro i h
    constructor
    · unfold calculate_risk_score
      have h1 : (0 : ℚ) ≤ min (i.amount / 1000) 0.3 :=
        le_min (by positivity) (by norm_num)
      linarith
    · have h1 := calculate_risk_score_le i
      linarith
  · intro s payment_id authorized_by auth_method intent h
    rw [authorize_payment_of_found s payment_id authorized_by auth_method intent h]

/-- Numeric fact used to discharge witness hypotheses. -/
theorem fifty_nonneg : (0 : ℚ) ≤ 50 := by norm_num

theorem c6_amended_risk_properties_witness :
    calculate_risk_score intentA = calculate_risk_score intentA ∧
    calculate_risk_score intentA ≤ calculate_risk_score intentDone ∧
    (0 ≤ calculate_risk_score intentA ∧ calculate_risk_score intentA ≤ 1) ∧
    calculate_risk_score intentA ≤ 2 / 5 ∧
    (authorize_payment runS1 "PAY-0" "agent_nav" "agent_signature").1 =
      .ok "PAY-0" ("AUTH-" ++ toString runS1.next_uuid) runS1.now
        (calculate_risk_score intentA) PaymentStatus.authorized "confirm_payment" :=
  ⟨c6_amended_risk_properties.1 intentA intentA rfl,
   c6_amended_risk_properties.2.1 intentA intentDone (le_refl 50),
   c6_amended_risk_properties.2.2.1 intentA fifty_nonneg,
   c6_amended_risk_properties.2.2.2.1 intentA,
   c6_amended_risk_properties.2.2.2.2 runS1 "PAY-0" "agent_nav" "agent_signature"
     intentA rfl⟩

/-- C10: the risk score is exactly `0.1 + min(amount/1000, 0.3)`, hence at
most `0.4`, so the high-risk branch (`> 0.8`) of `authorize_payment` is
unreachable and authorizing any stored intent with non-negative amount
succeeds, leaving it `authorized`. -/
theorem c10_high_risk_unreachable (s : AP2State)
    (payment_id authorized_by auth_method : String) (intent : PaymentIntent)
    (hfound : dictGet s.payment_intents payment_id = some intent)
    (_hamount : 0 ≤ intent.amount) :
    calculate_risk_score intent = 0.1 + min (intent.amount / 1000) 0.3 ∧
    calculate_risk_score intent ≤ 2 / 5 ∧
    ¬ ((0.8 : ℚ) < calculate_risk_score intent) ∧
    (authorize_payment s payment_id authorized_by auth_method).1 =
      .ok payment_id ("AUTH-" ++ toString s.next_uuid) s.now
        (calculate_risk_score intent) PaymentStatus.authorized "confirm_payment" ∧
    statusOf (authorize_payment s payment_id authorized_by auth_method).2 payment_id =
      some PaymentStatus.authorized := by
  refine ⟨rfl, calculate_risk_score_le intent, calculate_risk_score_not_high intent, ?_, ?_⟩
  · rw [authorize_payment_of_found s payment_id authorized_by auth_method intent hfound]
  · rw [authorize_payment_of_found s payment_id authorized_by auth_method intent hfound]
    simp [statusOf, dictGet_dictSet_self]

theorem c10_high_risk_unreachable_witness :
    calculate_risk_score intentA = 0.1 + min (intentA.amount / 1000) 0.3 ∧
    calculate_risk_score intentA ≤ 2 / 5 ∧
    ¬ ((0.8 : ℚ) < calculate_risk_score intentA) ∧
    (authorize_payment runS1 "PAY-0" "agent_nav" "agent_signature").1 =
      .ok "PAY-0" ("AUTH-" ++ toString runS1.next_uuid) runS1.now
        (calculate_risk_score intentA) PaymentStatus.authorized "confirm_payment" ∧
    statusOf (authorize_payment runS1 "PAY-0" "agent_nav" "agent_signature").2 "PAY-0" =
      some PaymentStatus.authorized :=
  c10_high_risk_unreachable runS1 "PAY-0" "agent_nav" "agent_signature" intentA rfl
    fifty_nonneg

/-! ## Verification Authority (`src/a2a_kyc_enhanced.py`)

`KycAgent` owns a private `_identity_store` (investor id → hashed identity
data) and the public `_verification_states` (investor id →
`VerificationState`); it handles KYC submissions and verification-state
requests.  The SHA-256 hashes used for the verification id
(`sha256(investor_id)[:12].upper()`) and for the stored identity hash
(`sha256(json.dumps(identity_data))`) are modelled as an arbitrary pair of
functions, since their only relevant property here is which inputs they
read. -/

/-- `KycStatus` — KYC verification status. -/
inductive KycStatus where
  | not_verified
  | pending
  | verified
  | rejected
deriving DecidableEq

/-- The `.value` string of a `KycStatus` member. -/
def KycStatus.value : KycStatus → String
  | .not_verified => "not_verified"
  | .pending => "pending"
  | .verified => "verified"
  | .rejected => "rejected"

/-- `Permission` — permissions granted based on verification state. -/
inductive Permission where
  | nonePerm
  | invest
  | trade
  | withdraw
  | transfer
  | borrow
deriving DecidableEq

/-- The `.value` string of a `Permission` member. -/
def Permission.value : Permission → String
  | .nonePerm => "none"
  | .invest => "invest"
  | .trade => "trade"
  | .withdraw => "withdraw"
  | .transfer => "transfer"
  | .borrow => "borrow"

/-- `VerificationState` — the verification state object owned by the
`KycAgent`, the only thing other agents ever see. -/
structure VerificationState where
  investor_id : String
  kyc_status : KycStatus
  verification_id : Option String
  verified_at : Option Nat
  permissions : List Permission
  risk_level : String
  compliance_flags : List String
deriving DecidableEq

/-- The values appearing in a serialized `VerificationState` dictionary. -/
inductive KVal where
  | str (s : String)
  | null
  | strList (xs : List String)
deriving DecidableEq

/-- `VerificationState.to_dict` — the exact dictionary the source method
builds. -/
def VerificationState.to_dict (st : VerificationState) : List (String × KVal) :=
  [("investor_id", .str st.investor_id),
   ("kyc_status", .str st.kyc_status.value),
   ("verification_id",
     match st.verification_id with
     | some v => .str v
     | none => .null),
   ("verified_at",
     match st.verified_at with
     | some t => .str (toString t)
     | none => .null),
   ("permissions", .strList (st.permissions.map Permission.value)),
   ("risk_level", .str st.risk_level),
   ("compliance_flags", .strList st.compliance_flags)]

/-- The entry the `KycAgent` keeps in its private `_identity_store`: the
hash of the submitted identity data and the verification time. -/
structure IdentityRecord where
  identity_hash : String
  verified_at : Nat
deriving DecidableEq

/-- The two SHA-256 uses of the source, abstracted: `shortHash` models
`sha256(investor_id.encode()).hexdigest()[:12].upper()` and `dataHash`
models `sha256(json.dumps(identity_data).encode()).hexdigest()`. -/
structure HashModel where
  shortHash : String → String
  dataHash : List (String × String) → String

/-- The mutable state of a `KycAgent`, plus a clock. -/
structure KycState where
  identity_store : List (String × IdentityRecord)
  verification_states : List (String × VerificationState)
  now : Nat
deriving DecidableEq

/-- A freshly constructed `KycAgent`. -/
def KycState.init : KycState := ⟨[], [], 0⟩

/-- `_verify_identity`: all four required fields must be present in the
submitted identity data. -/
def verify_identity (identity_data : List (String × String)) : Bool :=
  ["name", "date_of_birth", "national_id", "address"].all
    (fun f => (dictGet identity_data f).isSome)

/-- The payload of the `KYC_VERIFICATION_RESPONSE` message. -/
inductive KycSubmissionResult where
  | verified (verification_id : String) (verified_at : Nat)
  | rejected (reason : String)
deriving DecidableEq

/-- `_handle_kyc_submission`: on valid data, store the hashed identity
record privately and publish a `verified` state with the policy capability
set; on invalid data, publish a `rejected` state with no permissions. -/
def handle_kyc_submission (H : HashModel) (s : KycState) (investor_id : String)
    (identity_data : List (String × String)) : KycSubmissionResult × KycState :=
  if verify_identity identity_data = true then
    let verification_id := "KYC-" ++ H.shortHash investor_id
    (.verified verification_id s.now,
     { s with
        identity_store :=
          dictSet s.identity_store investor_id ⟨H.dataHash identity_data, s.now⟩
        verification_states :=
          dictSet s.verification_states investor_id
            ⟨investor_id, .verified, some verification_id, some s.now,
             [.invest, .trade, .withdraw, .transfer], "low",
             ["accredited_investor", "aml_cleared"]⟩
        now := s.now + 1 })
  else
    (.rejected "Identity verification failed",
     { s with
        verification_states :=
          dictSet s.verification_states investor_id
            ⟨investor_id, .rejected, none, none, [], "medium", []⟩
        now := s.now + 1 })

/-- The state `_handle_verification_state_request` serves: the stored one,
or a default `not_verified` state synthesized on the fly (and not stored). -/
def query_verification_state (s : KycState) (investor_id : String) : VerificationState :=
  match dictGet s.verification_states investor_id with
  | some st => st
  | none => ⟨investor_id, .not_verified, none, none, [], "medium", []⟩

/-- `_handle_verification_state_request`: the `verification_state` payload
of the response message — the served state's `to_dict`, nothing else. -/
def handle_verification_state_request (s : KycState) (investor_id : String) :
    List (String × KVal) :=
  (query_verification_state s investor_id).to_dict

/-! ### Claim C1: confidentiality of the state query -/

/-- C1: the verification-state response is exactly the seven
`VerificationState` fields; it is independent of the private
`_identity_store` (so no identity hash or identity record field can reach
it), and the published verification states themselves do not depend on the
submitted identity field values — two valid submissions with different
identity data publish identical states. -/
theorem c1_verification_state_confidentiality (s : KycState) (investor_id : String) :
    ((handle_verification_state_request s investor_id).map Prod.fst =
      ["investor_id", "kyc_status", "verification_id", "verified_at",
       "permissions", "risk_level", "compliance_flags"])
    ∧ (∀ ids', handle_verification_state_request { s with identity_store := ids' }
        investor_id = handle_verification_state_request s investor_id)
    ∧ (∀ (H : HashModel) (d₁ d₂ : List (String × String)),
        verify_identity d₁ = true → verify_identity d₂ = true →
        (handle_kyc_submission H s investor_id d₁).2.verification_states =
          (handle_kyc_submission H s investor_id d₂).2.verification_states) := by
  refine ⟨rfl, fun ids' => rfl, ?_⟩
  intro H d₁ d₂ h₁ h₂
  unfold handle_kyc_submission
  rw [if_pos h₁, if_pos h₂]

/-- A complete identity submission used in concrete scenarios (the demo's
identity data, truncated to the required fields plus the optional email). -/
def demoIdentity : List (String × String) :=
  [("name", "Vansh Ranawat"), ("date_of_birth", "1990-05-15"),
   ("national_id", "US-123456789"),
   ("address", "123 Main St, San Francisco, CA 94102"),
   ("email", "vansh.ranawat@email.com")]

/-- The same identity fields with a different address — still valid. -/
def demoIdentity2 : List (String × String) :=
  [("name", "Vansh Ranawat"), ("date_of_birth", "1990-05-15"),
   ("national_id", "US-123456789"), ("address", "9 Other Ave")]

/-- A hash model instance for witnesses; the theorems hold for every one. -/
def trivialHashes : HashModel := ⟨fun _ => "H", fun _ => "D"⟩

theorem c1_verification_state_confidentiality_witness :
    ((handle_verification_state_request KycState.init "INV-001").map Prod.fst =
      ["investor_id", "kyc_status", "verification_id", "verified_at",
       "permissions", "risk_level", "compliance_flags"])
    ∧ (handle_kyc_submission trivialHashes KycState.init "INV-001"
        demoIdentity).2.verification_states =
      (handle_kyc_submission trivialHashes KycState.init "INV-001"
        demoIdentity2).2.verification_states :=
  ⟨(c1_verification_state_confidentiality KycState.init "INV-001").1,
   (c1_verification_state_confidentiality KycState.init "INV-001").2.2
     trivialHashes demoIdentity demoIdentity2 (by decide) (by decide)⟩

/-! ### Claim C7: stability of the verification id -/

/-- C7: the verification id is derived from the principal id alone
(`KYC-` followed by the truncated hash of the investor id), so submitting
the same principal with the same valid identity fields twice returns the
same verification id both times. -/
theorem c7_verification_id_stable (H : HashModel) (s : KycState)
    (investor_id : String) (identity_data : List (String × String))
    (h : verify_identity identity_data = true) :
    (handle_kyc_submission H s investor_id identity_data).1 =
      .verified ("KYC-" ++ H.shortHash investor_id) s.now ∧
    (handle_kyc_submission H
        (handle_kyc_submission H s investor_id identity_data).2
        investor_id identity_data).1 =
      .verified ("KYC-" ++ H.shortHash investor_id)
        (handle_kyc_submission H s investor_id identity_data).2.now := by
  unfold handle_kyc_submission
  rw [if_pos h]
  rw [if_pos h]
  exact ⟨rfl, rfl⟩

theorem c7_verification_id_stable_witness :
    (handle_kyc_submission trivialHashes KycState.init "INV-001" demoIdentity).1 =
      .verified ("KYC-" ++ trivialHashes.shortHash "INV-001") KycState.init.now ∧
    (handle_kyc_submission trivialHashes
        (handle_kyc_submission trivialHashes KycState.init "INV-001" demoIdentity).2
        "INV-001" demoIdentity).1 =
      .verified ("KYC-" ++ trivialHashes.shortHash "INV-001")
        (handle_kyc_submission trivialHashes KycState.init "INV-001"
          demoIdentity).2.now :=
  c7_verification_id_stable trivialHashes KycState.init "INV-001" demoIdentity
    (by decide)

/-! ## Relying Party (`CompanyAgent` in `src/a2a_kyc_enhanced.py`) -/

/-- `TransactionStatus` — investment transaction status. -/
inductive TransactionStatus where
  | blocked
  | pending_verification
  | verified
  | completed
  | failed
deriving DecidableEq

/-- `TransactionState` — the relying party's transaction record. -/
structure TransactionState where
  transaction_id : String
  investor_id : String
  company_id : String
  amount : ℚ
  status : TransactionStatus
  reason : Option String
  timestamp : Nat
deriving DecidableEq

/-- The mutable state of a `CompanyAgent`, plus a uuid counter and clock. -/
structure CompanyState where
  company_id : String
  transactions : List (String × TransactionState)
  next_uuid : Nat
  now : Nat
deriving DecidableEq

/-- The payload of the `INVESTMENT_RESPONSE` message. -/
inductive InvestmentResult where
  | approved (transaction_id : String) (status : TransactionStatus) (amount : ℚ)
  | blocked (transaction_id : String) (status : TransactionStatus) (reason : String)
deriving DecidableEq

/-- Reading a string entry out of the verification-state dictionary
(Python `d['kyc_status']`; the key is always present). -/
def kvalStr : Option KVal → String
  | some (.str s) => s
  | _ => ""

/-- Reading a string-list entry out of the verification-state dictionary
(Python `d['permissions']`). -/
def kvalStrList : Option KVal → List String
  | some (.strList xs) => xs
  | _ => []

/-- The transaction record `_handle_investment_request` creates first,
with status `pending_verification`, before any decision is made. -/
def investment_pending_txn (c : CompanyState) (investor_id : String) (amount : ℚ) :
    TransactionState :=
  ⟨toString c.next_uuid, investor_id, c.company_id, amount,
   .pending_verification, none, c.now⟩

/-- `_handle_investment_request`: store the pending transaction, fetch the
verification-state dictionary from the `KycAgent` via A2A, and approve
exactly when the dictionary's status string is `verified` and `invest` is
among its permission strings; otherwise block with the stated reason.  The
`KycAgent`'s state is read, never written, by this exchange. -/
def handle_investment_request (kyc : KycState) (c : CompanyState)
    (investor_id : String) (amount : ℚ) : InvestmentResult × CompanyState :=
  let t0 := investment_pending_txn c investor_id amount
  let txns1 := dictSet c.transactions t0.transaction_id t0
  let vdict := handle_verification_state_request kyc investor_id
  let kyc_status := kvalStr (dictGet vdict "kyc_status")
  let permissions := kvalStrList (dictGet vdict "permissions")
  if kyc_status = KycStatus.verified.value ∧ "invest" ∈ permissions then
    (.approved t0.transaction_id .completed amount,
     { c with
        transactions :=
          dictSet txns1 t0.transaction_id { t0 with status := TransactionStatus.completed }
        next_uuid := c.next_uuid + 1
        now := c.now + 1 })
  else
    (.blocked t0.transaction_id .blocked
      "KYC verification required or insufficient permissions",
     { c with
        transactions :=
          dictSet txns1 t0.transaction_id
            { t0 with
                status := TransactionStatus.blocked
                reason := some "KYC verification required or insufficient permissions" }
        next_uuid := c.next_uuid + 1
        now := c.now + 1 })

/-- The serialized dictionary exposes the status under `kyc_status`. -/
theorem to_dict_kyc_status (st : VerificationState) :
    dictGet st.to_dict "kyc_status" = some (.str st.kyc_status.value) := rfl

/-- The serialized dictionary exposes the capability strings under
`permissions`. -/
theorem to_dict_permissions (st : VerificationState) :
    dictGet st.to_dict "permissions" =
      some (.strList (st.permissions.map Permission.value)) := rfl

/-- A status serializes to the string `verified` exactly when it is the
`verified` member. -/
theorem kyc_status_value_eq_verified (st : KycStatus) :
    (st.value = KycStatus.verified.value) ↔ st = KycStatus.verified := by
  cases st <;> decide

/-- The string `invest` occurs among serialized permissions exactly when
the `invest` member occurs among the permissions. -/
theorem mem_invest_map_value (ps : List Permission) :
    ("invest" ∈ ps.map Permission.value) ↔ Permission.invest ∈ ps := by
  induction ps with
  | nil => simp
  | cons p rest ih =>
      simp only [List.map_cons, List.mem_cons, ih]
      cases p <;> simp [Permission.value]

/-- The string condition the relying party evaluates on the dictionary is
equivalent to the semantic condition on the served verification state. -/
theorem investment_condition_iff (kyc : KycState) (investor_id : String) :
    ((kvalStr (dictGet (handle_verification_state_request kyc investor_id)
        "kyc_status") = KycStatus.verified.value ∧
      "invest" ∈ kvalStrList (dictGet (handle_verification_state_request kyc investor_id)
        "permissions"))
      ↔ ((query_verification_state kyc investor_id).kyc_status = KycStatus.verified ∧
          Permission.invest ∈ (query_verification_state kyc investor_id).permissions)) := by
  simp only [handle_verification_state_request, to_dict_kyc_status, to_dict_permissions,
    kvalStr, kvalStrList]
  exact and_congr (kyc_status_value_eq_verified _) (mem_invest_map_value _)

/-! ### Claim C8: the relying party's decision rule -/

/-- C8: every investment request first creates a transaction record with
status `pending_verification`; it is approved — the transaction ending
`completed` — exactly when the Authority's current state for the principal
is `verified` with the `invest` capability, and otherwise ends `blocked`
with the stated reason.  The decision reads the Authority's state at
request time, so it is evaluated fresh on every request. -/
theorem c8_investment_gating (kyc : KycState) (c : CompanyState)
    (investor_id : String) (amount : ℚ) :
    ((investment_pending_txn c investor_id amount).status =
      TransactionStatus.pending_verification)
    ∧ (((query_verification_state kyc investor_id).kyc_status = KycStatus.verified ∧
        Permission.invest ∈ (query_verification_state kyc investor_id).permissions) →
      handle_investment_request kyc c investor_id amount =
        (.approved (investment_pending_txn c investor_id amount).transaction_id
          .completed amount,
         { c with
            transactions :=
              dictSet
                (dictSet c.transactions
                  (investment_pending_txn c investor_id amount).transaction_id
                  (investment_pending_txn c investor_id amount))
                (investment_pending_txn c investor_id amount).transaction_id
                { investment_pending_txn c investor_id amount with
                    status := TransactionStatus.completed }
            next_uuid := c.next_uuid + 1
            now := c.now + 1 }))
    ∧ (¬ ((query_verification_state kyc investor_id).kyc_status = KycStatus.verified ∧
        Permission.invest ∈ (query_verification_state kyc investor_id).permissions) →
      handle_investment_request kyc c investor_id amount =
        (.blocked (investment_pending_txn c investor_id amount).transaction_id
          .blocked "KYC verification required or insufficient permissions",
         { c with
            transactions :=
              dictSet
                (dictSet c.transactions
                  (investment_pending_txn c investor_id amount).transaction_id
                  (investment_pending_txn c investor_id amount))
                (investment_pending_txn c investor_id amount).transaction_id
                { investment_pending_txn c investor_id amount with
                    status := TransactionStatus.blocked
                    reason :=
                      some "KYC verification required or insufficient permissions" }
            next_uuid := c.next_uuid + 1
            now := c.now + 1 })) := by
  refine ⟨rfl, ?_, ?_⟩
  · intro h
    unfold handle_investment_request
    rw [if_pos ((investment_condition_iff kyc investor_id).mpr h)]
  · intro h
    unfold handle_investment_request
    rw [if_neg (fun hc => h ((investment_condition_iff kyc investor_id).mp hc))]

/-- The Authority's state once the demo principal has passed KYC. -/
def kycVerifiedState : KycState :=
  (handle_kyc_submission trivialHashes KycState.init "INV-001" demoIdentity).2

/-- A freshly constructed relying party. -/
def companyA : CompanyState := ⟨"COMP-A", [], 0, 0⟩

theorem c8_investment_gating_witness :
    handle_investment_request kycVerifiedState companyA "INV-001" 50000 =
      (.approved (investment_pending_txn companyA "INV-001" 50000).transaction_id
        .completed 50000,
       { companyA with
          transactions :=
            dictSet
              (dictSet companyA.transactions
                (investment_pending_txn companyA "INV-001" 50000).transaction_id
                (investment_pending_txn companyA "INV-001" 50000))
              (investment_pending_txn companyA "INV-001" 50000).transaction_id
              { investment_pending_txn companyA "INV-001" 50000 with
                  status := TransactionStatus.completed }
          next_uuid := companyA.next_uuid + 1
          now := companyA.now + 1 }) ∧
    handle_investment_request KycState.init companyA "INV-001" 50000 =
      (.blocked (investment_pending_txn companyA "INV-001" 50000).transaction_id
        .blocked "KYC verification required or insufficient permissions",
       { companyA with
          transactions :=
            dictSet
              (dictSet companyA.transactions
                (investment_pending_txn companyA "INV-001" 50000).transaction_id
                (investment_pending_txn companyA "INV-001" 50000))
              (investment_pending_txn companyA "INV-001" 50000).transaction_id
              { investment_pending_txn companyA "INV-001" 50000 with
                  status := TransactionStatus.blocked
                  reason :=
                    some "KYC verification required or insufficient permissions" }
          next_uuid := companyA.next_uuid + 1
          now := companyA.now + 1 }) :=
  ⟨(c8_investment_gating kycVerifiedState companyA "INV-001" 50000).2.1 (by decide),
   (c8_investment_gating KycState.init companyA "INV-001" 50000).2.2 (by decide)⟩

/-! ## Step-Binding Resolver (`AgentNav._resolve_parameters` in `src/agents/nav.py`)

The execution context maps keys of the form `stepN` (built by the
orchestrator as `f"step..."` from each completed step's number) to that
step's result dictionary.  Values are modelled by a small JSON-like
universe `JVal`; a parameter value is rewritten only when it is a string of
the placeholder shape, written here with escaped braces. -/

/-- A JSON-like value: what Python passes around as step results and
parameter values. -/
inductive JVal where
  | str (s : String)
  | num (q : ℚ)
  | boolean (b : Bool)
  | null
  | obj (fields : List (String × JVal))

/-- Key lookup on a value, yielding `none` when the value is not a
dictionary or the key is absent (Python `key in d` plus `d[key]`). -/
def objGet : JVal → String → Option JVal
  | .obj fields, key => dictGet fields key
  | _, _ => none

/-- The navigation of one step result: prefer `step_result["data"][field]`
when the nested data envelope holds the field, else `step_result[field]`,
else nothing. -/
def lookup_step_field (step_result : JVal) (field : String) : Option JVal :=
  match objGet step_result "data" with
  | some dataVal =>
      match objGet dataVal field with
      | some w => some w
      | none => objGet step_result field
  | none => objGet step_result field

/-- The per-value body of `_resolve_parameters`: a string value that starts
with the two placeholder characters and ends with the closing brace is
split as `stepN.field` and resolved against the context; in every other
case — non-string value, non-placeholder string, malformed reference, step
not yet executed, field absent — the value passes through unchanged. -/
def resolve_value (ctx : List (String × JVal)) (v : JVal) : JVal :=
  match v with
  | .str value =>
      if pyStartsWith value "$\x7b" && pyEndsWith value "\x7d" then
        match pySplitOnDot (pyDropRight (pyDrop value 2) 1) with
        | [step_ref, field] =>
            match dictGet ctx step_ref with
            | some step_result =>
                match lookup_step_field step_result field with
                | some w => w
                | none => .str value
            | none => .str value
        | _ => .str value
      else .str value
  | other => other

/-- `_resolve_parameters`: rewrite each parameter value with
`resolve_value`, keeping keys and order. -/
def resolve_parameters (ctx : List (String × JVal))
    (parameters : List (String × JVal)) : List (String × JVal) :=
  parameters.map (fun kv => (kv.1, resolve_value ctx kv.2))

/-- The spec's example context: step 1 completed with a data envelope
holding `workspace_id = WS-9`. -/
def ctx9 : List (String × JVal) :=
  [("step1", .obj [("data", .obj [("workspace_id", .str "WS-9")])])]

/-! ### Claim C9: the resolver's substitution discipline -/

/-- C9: the resolver substitutes placeholder values of the shape
`stepN.field` from the context, preferring the nested data envelope,
passes unresolved placeholders through unchanged rather than failing, and
passes every non-placeholder value through unchanged; on the spec's
example context it resolves the workspace id and leaves a dangling step-5
reference literal. -/
theorem c9_resolver_substitution :
    (resolve_parameters ctx9 [("workspace_id", .str "$\x7bstep1.workspace_id\x7d")] =
      [("workspace_id", .str "WS-9")])
    ∧ (resolve_parameters ctx9 [("x", .str "$\x7bstep5.x\x7d")] =
        [("x", .str "$\x7bstep5.x\x7d")])
    ∧ (∀ ctx v, (∀ s, v ≠ JVal.str s) → resolve_value ctx v = v)
    ∧ (∀ ctx s, ¬ (pyStartsWith s "$\x7b" = true ∧ pyEndsWith s "\x7d" = true) →
        resolve_value ctx (.str s) = .str s)
    ∧ (∀ ctx s step_ref field,
        pyStartsWith s "$\x7b" = true → pyEndsWith s "\x7d" = true →
        pySplitOnDot (pyDropRight (pyDrop s 2) 1) = [step_ref, field] →
        (dictGet ctx step_ref = none → resolve_value ctx (.str s) = .str s) ∧
        (∀ step_result, dictGet ctx step_ref = some step_result →
          resolve_value ctx (.str s) =
            (lookup_step_field step_result field).getD (.str s)))
    ∧ (∀ step_result dataVal field w,
        objGet step_result "data" = some dataVal → objGet dataVal field = some w →
        lookup_step_field step_result field = some w) := by
  refine ⟨rfl, rfl, ?_, ?_, ?_, ?_⟩
  · intro ctx v h
    cases v with
    | str s => exact absurd rfl (h s)
    | num q => rfl
    | boolean b => rfl
    | null => rfl
    | obj fields => rfl
  · intro ctx s h
    have hb : (pyStartsWith s "$\x7b" && pyEndsWith s "\x7d") = false := by
      cases hp : pyStartsWith s "$\x7b" <;> cases he : pyEndsWith s "\x7d" <;>
        simp_all
    simp [resolve_value, hb]
  · intro ctx s step_ref field h1 h2 h3
    constructor
    · intro hnone
      simp [resolve_value, h1, h2, h3, hnone]
    · intro step_result hsome
      simp only [resolve_value, h1, h2, Bool.and_self, if_pos, h3, hsome]
      cases lookup_step_field step_result field <;> rfl
  · intro step_result dataVal field w hdata hfield
    simp [lookup_step_field, hdata, hfield]

theorem c9_resolver_substitution_witness :
    resolve_value ctx9 (JVal.num 7) = JVal.num 7 ∧
    resolve_value ctx9 (.str "hello") = .str "hello" ∧
    resolve_value ctx9 (.str "$\x7bstep1.workspace_id\x7d") =
      (lookup_step_field (JVal.obj [("data", .obj [("workspace_id", .str "WS-9")])])
        "workspace_id").getD (.str "$\x7bstep1.workspace_id\x7d") ∧
    resolve_value ctx9 (.str "$\x7bstep5.x\x7d") = .str "$\x7bstep5.x\x7d" ∧
    lookup_step_field (JVal.obj [("data", .obj [("workspace_id", .str "WS-9")])])
      "workspace_id" = some (.str "WS-9") :=
  ⟨c9_resolver_substitution.2.2.1 ctx9 (JVal.num 7) (fun s h => JVal.noConfusion h),
   c9_resolver_substitution.2.2.2.1 ctx9 "hello" (by decide),
   (c9_resolver_substitution.2.2.2.2.1 ctx9 "$\x7bstep1.workspace_id\x7d" "step1"
      "workspace_id" rfl rfl rfl).2
     (JVal.obj [("data", .obj [("workspace_id", .str "WS-9")])]) rfl,
   (c9_resolver_substitution.2.2.2.2.1 ctx9 "$\x7bstep5.x\x7d" "step5" "x"
      rfl rfl rfl).1 rfl,
   c9_resolver_substitution.2.2.2.2.2
     (JVal.obj [("data", .obj [("workspace_id", .str "WS-9")])])
     (.obj [("workspace_id", .str "WS-9")]) "workspace_id" (.str "WS-9") rfl rfl⟩

end Spec2Proof
